import Mathlib

/-!
Shallow embedding of the custody layer of the X-ray management system:
`src/database/database_manager.py` (DatabaseManager) and
`src/security/auth_manager.py` (AuthManager).

SQLite tables become Lean lists of rows; AUTOINCREMENT ids become explicit
counters in the `DB` state; `CURRENT_TIMESTAMP` becomes the `now` field.
The external `cryptography.fernet.Fernet` cipher and the `bcrypt` library
are modelled as explicit function bundles (`Cipher`, `Bcrypt`) passed to the
operations, exactly where the Python objects `self.cipher` and the `bcrypt`
module appear; their documented contracts (e.g. decrypt-of-encrypt round
trip) are stated as hypotheses where a theorem needs them.  `bcrypt.gensalt`
and `Fernet.generate_key` are fresh random inputs, modelled as explicit
arguments.  Payload strings stand for the `json.dumps(patient_data)` text
that the source encrypts.
-/

namespace Xray

/-- Model of the `cryptography.fernet.Fernet` object held in
`DatabaseManager.cipher`: `encrypt` and `decrypt`, with `decrypt` returning
`none` where the library raises `InvalidToken`. -/
structure Cipher where
  encrypt : String → String
  decrypt : String → Option String
deriving Inhabited

/-- The documented Fernet contract: decrypting a freshly encrypted token
returns the original plaintext. -/
def Cipher.RoundTrip (c : Cipher) : Prop :=
  ∀ s : String, c.decrypt (c.encrypt s) = some s

/-- Model of the `bcrypt` module: `hashpw password salt` and
`checkpw password hash`. -/
structure Bcrypt where
  hashpw : String → Nat → String
  checkpw : String → String → Bool
deriving Inhabited

/-- A row of the `users` table (`initialize_database`, users schema). -/
structure UserRow where
  id : Nat
  username : String
  password_hash : String
  role : String
  full_name : String
  email : Option String
  created_at : Nat
  last_login : Option Nat
  is_active : Bool
deriving DecidableEq

/-- A row of the `patients` table: external `patient_id` plus the opaque
encrypted blob and timestamps. -/
structure PatientRow where
  id : Nat
  patient_id : String
  encrypted_data : String
  created_at : Nat
  updated_at : Nat
deriving DecidableEq

/-- A row of the `audit_logs` table (HIPAA audit ledger). -/
structure AuditEntry where
  id : Nat
  user_id : Option Nat
  action : String
  resource_type : String
  resource_id : Nat
  details : String
  timestamp : Nat
deriving DecidableEq

/-- The persistent database state: the three tables the custody layer
touches, the AUTOINCREMENT counters, and the wall clock used to stamp
`CURRENT_TIMESTAMP` columns. -/
structure DB where
  users : List UserRow
  patients : List PatientRow
  audit_logs : List AuditEntry
  next_user_id : Nat
  next_patient_rowid : Nat
  next_audit_id : Nat
  now : Nat
deriving DecidableEq

/-- `DatabaseManager._encrypt_data`: encrypt the (utf-8 encoded) data string
with the Fernet cipher. -/
def encrypt_data (c : Cipher) (data : String) : String :=
  c.encrypt data

/-- `DatabaseManager._decrypt_data`: decrypt and decode; `none` models the
`InvalidToken` exception. -/
def decrypt_data (c : Cipher) (encrypted_data : String) : Option String :=
  c.decrypt encrypted_data

/-- `DatabaseManager._load_or_create_key`.  `key_file` is the content of
`data/encryption.key` (`none` when the file does not exist) and `fresh`
is the random key `Fernet.generate_key()` would produce.  Returns the key
handed back to the caller together with the resulting file content.  The
source returns the file content verbatim when the file exists and
otherwise writes and returns the fresh key; it performs no validation. -/
def load_or_create_key (key_file : Option (List Nat)) (fresh : List Nat) :
    List Nat × List Nat :=
  match key_file with
  | some content => (content, content)
  | none => (fresh, fresh)

/-- `DatabaseManager._log_audit_action`: INSERT one row into `audit_logs`
(with its own connection and commit). -/
def log_audit_action (db : DB) (user_id : Option Nat) (action : String)
    (resource_type : String) (resource_id : Nat) (details : String) : DB :=
  { db with
    audit_logs := db.audit_logs ++
      [{ id := db.next_audit_id, user_id := user_id, action := action,
         resource_type := resource_type, resource_id := resource_id,
         details := details, timestamp := db.now }],
    next_audit_id := db.next_audit_id + 1 }

/-- `DatabaseManager.add_patient`.  `ext_id` is `patient_data['patient_id']`
and `payload` is `json.dumps(patient_data)`.  The INSERT violates the
UNIQUE constraint on `patient_id` when a row with the same external id
exists; the uncaught `IntegrityError` is the `.error` branch and leaves the
state unchanged.  Otherwise the row is inserted and committed, and then one
`CREATE` audit entry is appended (with `user_id = None`). -/
def add_patient (c : Cipher) (db : DB) (ext_id : String) (payload : String) :
    Except String (Nat × DB) :=
  let encrypted := encrypt_data c payload
  if db.patients.any (fun r => r.patient_id == ext_id) then
    .error "IntegrityError: UNIQUE constraint failed: patients.patient_id"
  else
    let rowid := db.next_patient_rowid
    let db1 : DB := { db with
      patients := db.patients ++
        [{ id := rowid, patient_id := ext_id, encrypted_data := encrypted,
           created_at := db.now, updated_at := db.now }],
      next_patient_rowid := rowid + 1 }
    let db2 := log_audit_action db1 none "CREATE" "patient" rowid
      "New patient added"
    .ok (rowid, db2)

/-- The value `DatabaseManager.get_patient` returns: the decrypted payload
dict updated with the row id and timestamps. -/
structure PatientRecord where
  data : String
  id : Nat
  created_at : Nat
  updated_at : Nat
deriving DecidableEq

/-- `DatabaseManager.get_patient`: SELECT by external id; `.ok none` when no
row matches, `.error` when decryption raises, otherwise the decrypted
payload together with id and timestamps.  The function only reads the
database: it writes no audit entry. -/
def get_patient (c : Cipher) (db : DB) (ext_id : String) :
    Except String (Option PatientRecord) :=
  match db.patients.find? (fun r => r.patient_id == ext_id) with
  | none => .ok none
  | some row =>
    match decrypt_data c row.encrypted_data with
    | none => .error "InvalidToken"
    | some data =>
      .ok (some { data := data, id := row.id, created_at := row.created_at,
                  updated_at := row.updated_at })

/-- A row of the audit-log view produced by `get_audit_logs` after the LEFT
JOIN with `users`. -/
structure AuditLogView where
  id : Nat
  username : String
  action : String
  resource_type : String
  resource_id : Nat
  details : String
  timestamp : Nat
deriving DecidableEq

/-- The username column of the LEFT JOIN in `get_audit_logs`: `row[1] or
'System'` replaces a NULL join result (NULL `user_id` or missing user) and
an empty username with `System`. -/
def audit_username (db : DB) (user_id : Option Nat) : String :=
  match user_id with
  | none => "System"
  | some uid =>
    match db.users.find? (fun r => r.id == uid) with
    | none => "System"
    | some r => if r.username = "" then "System" else r.username

/-- Insertion step of `ORDER BY al.timestamp DESC`: insert an entry into a
list already sorted by non-increasing timestamp. -/
def insertByTimestampDesc (e : AuditEntry) : List AuditEntry → List AuditEntry
  | [] => [e]
  | x :: xs =>
    if x.timestamp ≤ e.timestamp then e :: x :: xs
    else x :: insertByTimestampDesc e xs

/-- `ORDER BY al.timestamp DESC`: sort the audit rows by non-increasing
wall-clock timestamp. -/
def sortByTimestampDesc : List AuditEntry → List AuditEntry
  | [] => []
  | x :: xs => insertByTimestampDesc x (sortByTimestampDesc xs)

/-- `DatabaseManager.get_audit_logs`: SELECT with LEFT JOIN on `users`,
`ORDER BY al.timestamp DESC`, `LIMIT ?`. -/
def get_audit_logs (db : DB) (limit : Nat) : List AuditLogView :=
  ((sortByTimestampDesc db.audit_logs).take limit).map (fun e =>
    { id := e.id, username := audit_username db e.user_id, action := e.action,
      resource_type := e.resource_type, resource_id := e.resource_id,
      details := e.details, timestamp := e.timestamp })

/-- The dict `AuthManager.authenticate_user` returns on success (and stores
in `current_user`). -/
structure UserData where
  id : Nat
  username : String
  role : String
  full_name : String
  email : Option String
  login_time : Nat
deriving DecidableEq

/-- `AuthManager.authenticate_user`: look the username up; unknown user,
inactive user and wrong password all return `none` and leave the database
unchanged; on success the user's `last_login` is set to the current time
and the session dict is returned.  No audit-log row is written on any
path (the source only calls the application logger). -/
def authenticate_user (bc : Bcrypt) (db : DB) (username password : String) :
    Option UserData × DB :=
  match db.users.find? (fun r => r.username == username) with
  | none => (none, db)
  | some row =>
    if !row.is_active then (none, db)
    else if bc.checkpw password row.password_hash then
      let db1 : DB := { db with
        users := db.users.map (fun r =>
          if r.id == row.id then { r with last_login := some db.now } else r) }
      (some { id := row.id, username := row.username, role := row.role,
              full_name := row.full_name, email := row.email,
              login_time := db.now }, db1)
    else (none, db)

/-- The role-based permission dictionary hard-coded in
`AuthManager.has_permission`; `permissions.get(role, [])` yields `[]` for
any unmapped role. -/
def role_permissions (role : String) : List String :=
  if role = "admin" then
    ["view_patients", "add_patients", "edit_patients", "delete_patients",
     "view_xrays", "add_xrays", "edit_xrays", "delete_xrays",
     "view_users", "add_users", "edit_users", "delete_users",
     "view_equipment", "add_equipment", "edit_equipment", "delete_equipment",
     "view_audit_logs", "view_usage_logs", "system_admin"]
  else if role = "radiologist" then
    ["view_patients", "view_xrays", "edit_xrays", "add_annotations",
     "view_equipment", "view_usage_logs"]
  else if role = "technician" then
    ["view_patients", "add_patients", "view_xrays", "add_xrays",
     "view_equipment", "add_usage_logs"]
  else []

/-- `AuthManager.has_permission`: `False` when no user is logged in,
otherwise membership of the permission in the current user's role list. -/
def has_permission (current_user : Option UserData) (permission : String) :
    Bool :=
  match current_user with
  | none => false
  | some u => (role_permissions u.role).contains permission

/-- `AuthManager.change_password`: fetch the stored hash by user id (`none`
row → `False`), verify the old password against it, and only then hash the
new password (with fresh salt `salt`) and UPDATE the row.  There is no
check on the new password itself. -/
def change_password (bc : Bcrypt) (db : DB) (user_id : Nat)
    (old_password new_password : String) (salt : Nat) : Bool × DB :=
  match db.users.find? (fun r => r.id == user_id) with
  | none => (false, db)
  | some row =>
    if !bc.checkpw old_password row.password_hash then (false, db)
    else
      let new_hash := bc.hashpw new_password salt
      (true, { db with
        users := db.users.map (fun r =>
          if r.id == user_id then { r with password_hash := new_hash }
          else r) })

/-- `AuthManager.create_user`: denied (`False`, no change) unless the
current user has `add_users`; the INSERT hits the UNIQUE constraint on
`username` (byte-exact, hence case-sensitive comparison) when the username
exists, which the source catches as `IntegrityError` and turns into
`False` with nothing persisted; otherwise the new row is inserted. -/
def create_user (bc : Bcrypt) (db : DB) (current_user : Option UserData)
    (username password role full_name : String) (email : Option String)
    (salt : Nat) : Bool × DB :=
  if !has_permission current_user "add_users" then (false, db)
  else
    let password_hash := bc.hashpw password salt
    if db.users.any (fun r => r.username == username) then (false, db)
    else
      (true, { db with
        users := db.users ++
          [{ id := db.next_user_id, username := username,
             password_hash := password_hash, role := role,
             full_name := full_name, email := email, created_at := db.now,
             last_login := none, is_active := true }],
        next_user_id := db.next_user_id + 1 })

end Xray

namespace Xray

/-- A trivially invertible cipher used to instantiate the external Fernet
contract in concrete scenarios. -/
def cipher0 : Cipher := { encrypt := fun s => s, decrypt := fun s => some s }

/-- A bcrypt instantiation for concrete scenarios: the hash records the
password and verification is equality. -/
def bcrypt0 : Bcrypt := { hashpw := fun p _ => p, checkpw := fun p h => p == h }

/-- The empty database, as `initialize_database` leaves it before any user
is inserted. -/
def db0 : DB :=
  { users := [], patients := [], audit_logs := [], next_user_id := 1,
    next_patient_rowid := 1, next_audit_id := 1, now := 0 }

def alice_row : UserRow :=
  { id := 1, username := "alice", password_hash := "pw", role := "technician",
    full_name := "Alice", email := none, created_at := 0, last_login := none,
    is_active := true }

/-- A database holding the single active user `alice` whose `bcrypt0` hash
verifies the password `pw`. -/
def db_alice : DB := { db0 with users := [alice_row] }

def radiologist_session : UserData :=
  { id := 7, username := "rho", role := "radiologist", full_name := "Rho",
    email := none, login_time := 0 }

def tech_session : UserData :=
  { id := 8, username := "tess", role := "technician", full_name := "Tess",
    email := none, login_time := 0 }

def admin_session : UserData :=
  { id := 9, username := "root", role := "admin", full_name := "Root",
    email := none, login_time := 0 }

/-- The state after `put(caller, "P-100", "name=Jane Doe")` on the empty
database. -/
def db_after_put : DB :=
  match add_patient cipher0 db0 "P-100" "name=Jane Doe" with
  | .ok (_, d) => d
  | .error _ => db0

/-- An audit ledger whose wall-clock timestamps disagree with the sequence
order: entry 1 carries timestamp 5, entry 2 carries timestamp 10. -/
def db_skew : DB :=
  { db0 with
    audit_logs :=
      [{ id := 1, user_id := none, action := "CREATE", resource_type := "patient",
         resource_id := 1, details := "a", timestamp := 5 },
       { id := 2, user_id := none, action := "CREATE", resource_type := "patient",
         resource_id := 2, details := "b", timestamp := 10 }],
    next_audit_id := 3 }

end Xray

namespace Xray

/-- `cipher0` satisfies the Fernet round-trip contract. -/
theorem cipher0_roundtrip : cipher0.RoundTrip := fun _ => rfl

/-- A list whose elements all fail the predicate contributes nothing to
`find?` over an append. -/
theorem find?_append_of_none {α : Type} {p : α → Bool} {l1 l2 : List α}
    (h : l1.find? p = none) : (l1 ++ l2).find? p = l2.find? p := by
  induction l1 with
  | nil => rfl
  | cons a t ih =>
    rw [List.find?_cons] at h
    cases hpa : p a with
    | true => simp [hpa] at h
    | false =>
      simp only [hpa] at h
      simpa [List.find?_cons, hpa] using ih h

/-- `any` being false means `find?` finds nothing. -/
theorem find?_eq_none_of_any_eq_false {α : Type} {p : α → Bool} {l : List α}
    (h : l.any p = false) : l.find? p = none := by
  induction l with
  | nil => rfl
  | cons a t ih =>
    simp only [List.any_cons, Bool.or_eq_false_iff] at h
    simp [List.find?_cons, h.1, ih h.2]

/-- Membership after ordered insertion. -/
theorem mem_insertByTimestampDesc {e x : AuditEntry} {l : List AuditEntry} :
    x ∈ insertByTimestampDesc e l ↔ x = e ∨ x ∈ l := by
  induction l with
  | nil => simp [insertByTimestampDesc]
  | cons a t ih =>
    by_cases hc : a.timestamp ≤ e.timestamp
    · simp [insertByTimestampDesc, hc]
    · simp [insertByTimestampDesc, hc, ih]
      tauto

/-- Ordered insertion preserves sortedness by non-increasing timestamp. -/
theorem pairwise_insertByTimestampDesc {e : AuditEntry} {l : List AuditEntry}
    (h : l.Pairwise (fun a b => b.timestamp ≤ a.timestamp)) :
    (insertByTimestampDesc e l).Pairwise
      (fun a b => b.timestamp ≤ a.timestamp) := by
  induction l with
  | nil => simp [insertByTimestampDesc]
  | cons a t ih =>
    rcases List.pairwise_cons.mp h with ⟨ha, ht⟩
    by_cases hc : a.timestamp ≤ e.timestamp
    · rw [insertByTimestampDesc, if_pos hc]
      refine List.pairwise_cons.mpr ⟨?_, h⟩
      intro y hy
      rcases List.mem_cons.mp hy with rfl | hyt
      · exact hc
      · exact le_trans (ha y hyt) hc
    · rw [insertByTimestampDesc, if_neg hc]
      refine List.pairwise_cons.mpr ⟨?_, ih ht⟩
      intro y hy
      rcases mem_insertByTimestampDesc.mp hy with rfl | hyt
      · exact le_of_not_le hc
      · exact ha y hyt

/-- The model of `ORDER BY al.timestamp DESC` really sorts by
non-increasing timestamp. -/
theorem pairwise_sortByTimestampDesc (l : List AuditEntry) :
    (sortByTimestampDesc l).Pairwise (fun a b => b.timestamp ≤ a.timestamp) := by
  induction l with
  | nil => exact List.Pairwise.nil
  | cons a t ih => exact pairwise_insertByTimestampDesc ih

/-- Normal form of a successful `add_patient` call: the fresh row is
appended to `patients` and exactly one `CREATE` audit row is appended to
`audit_logs`. -/
theorem add_patient_eq (c : Cipher) (db : DB) (ext_id payload : String)
    (hfresh : db.patients.any (fun r => r.patient_id == ext_id) = false) :
    add_patient c db ext_id payload = .ok (db.next_patient_rowid,
      { db with
        patients := db.patients ++
          [{ id := db.next_patient_rowid, patient_id := ext_id,
             encrypted_data := encrypt_data c payload, created_at := db.now,
             updated_at := db.now }],
        next_patient_rowid := db.next_patient_rowid + 1,
        audit_logs := db.audit_logs ++
          [{ id := db.next_audit_id, user_id := none, action := "CREATE",
             resource_type := "patient", resource_id := db.next_patient_rowid,
             details := "New patient added", timestamp := db.now }],
        next_audit_id := db.next_audit_id + 1 }) := by
  simp [add_patient, log_audit_action, hfresh]


/-- C1 (counterexample): the role `radiologist` lacks the `add_patients`
write permission, yet a put on its behalf changes the ciphertext store
(one new patient row) and appends a `CREATE`-verb audit entry, not a
`PERMISSION_DENIED` one: `add_patient` consults no caller at all. -/
theorem C1_counterexample :
    has_permission (some radiologist_session) "add_patients" = false ∧
    db0.patients.length = 0 ∧
    db_after_put.patients.length = 1 ∧
    db_after_put.audit_logs.map (fun e => e.action) = ["CREATE"] :=
  ⟨by decide, rfl, rfl, rfl⟩

/-- C1 (amended): `add_patient` performs no permission check (it takes no
caller), so no put is ever denied and no `PERMISSION_DENIED` audit entry
exists; on every successful put the ciphertext row and exactly one
`CREATE`-verb audit entry are both present in the resulting state (each
written by its own commit). -/
theorem C1_put_unconditional_create_audit (c : Cipher) (db : DB)
    (ext_id payload : String)
    (hfresh : db.patients.any (fun r => r.patient_id == ext_id) = false) :
    ∃ db2, add_patient c db ext_id payload = .ok (db.next_patient_rowid, db2) ∧
      db2.patients = db.patients ++
        [{ id := db.next_patient_rowid, patient_id := ext_id,
           encrypted_data := encrypt_data c payload, created_at := db.now,
           updated_at := db.now }] ∧
      db2.audit_logs = db.audit_logs ++
        [{ id := db.next_audit_id, user_id := none, action := "CREATE",
           resource_type := "patient", resource_id := db.next_patient_rowid,
           details := "New patient added", timestamp := db.now }] :=
  ⟨_, add_patient_eq c db ext_id payload hfresh, rfl, rfl⟩

/-- C1 (witness): the amended put/audit coupling evaluated on the empty
database. -/
theorem C1_put_unconditional_create_audit_witness :
    ∃ db2, add_patient cipher0 db0 "P-100" "name=Jane Doe" =
        .ok (db0.next_patient_rowid, db2) ∧
      db2.patients = db0.patients ++
        [{ id := db0.next_patient_rowid, patient_id := "P-100",
           encrypted_data := encrypt_data cipher0 "name=Jane Doe",
           created_at := db0.now, updated_at := db0.now }] ∧
      db2.audit_logs = db0.audit_logs ++
        [{ id := db0.next_audit_id, user_id := none, action := "CREATE",
           resource_type := "patient", resource_id := db0.next_patient_rowid,
           details := "New patient added", timestamp := db0.now }] :=
  C1_put_unconditional_create_audit cipher0 db0 "P-100" "name=Jane Doe" rfl

/-- C2 (counterexample): after `put("P-100", "name=Jane Doe")` on the empty
database followed by `get("P-100")`, the payload is returned but the audit
ledger holds exactly one new entry (`CREATE`), not two: `get_patient` is
read-only and appends no `READ` entry. -/
theorem C2_counterexample :
    get_patient cipher0 db_after_put "P-100" =
      .ok (some { data := "name=Jane Doe", id := 1, created_at := 0,
                  updated_at := 0 }) ∧
    db_after_put.audit_logs.map (fun e => e.action) = ["CREATE"] ∧
    db_after_put.audit_logs.length ≠ 2 :=
  ⟨rfl, rfl, by decide⟩

/-- C2 (amended): a put that creates a record followed by a get of it
returns the stored payload, but leaves the audit ledger with exactly one
new entry, `CREATE`; reads are not audited (`get_patient` does not write
to the database at all). -/
theorem C2_put_get_single_create_entry (c : Cipher) (hc : c.RoundTrip)
    (db : DB) (ext_id payload : String)
    (hfresh : db.patients.any (fun r => r.patient_id == ext_id) = false) :
    ∃ db2, add_patient c db ext_id payload = .ok (db.next_patient_rowid, db2) ∧
      get_patient c db2 ext_id =
        .ok (some ⟨payload, db.next_patient_rowid, db.now, db.now⟩) ∧
      db2.audit_logs.map (fun e => e.action) =
        db.audit_logs.map (fun e => e.action) ++ ["CREATE"] := by
  have h1 : db.patients.find? (fun r => r.patient_id == ext_id) = none :=
    find?_eq_none_of_any_eq_false hfresh
  refine ⟨_, add_patient_eq c db ext_id payload hfresh, ?_, by simp⟩
  simp [get_patient, find?_append_of_none h1, decrypt_data, encrypt_data,
    hc payload]

/-- C2 (witness): the amended put-then-get scenario evaluated on the empty
database with the concrete payload of the spec scenario. -/
theorem C2_put_get_single_create_entry_witness :
    ∃ db2, add_patient cipher0 db0 "P-100" "name=Jane Doe" =
        .ok (db0.next_patient_rowid, db2) ∧
      get_patient cipher0 db2 "P-100" =
        .ok (some ⟨"name=Jane Doe", db0.next_patient_rowid, db0.now, db0.now⟩) ∧
      db2.audit_logs.map (fun e => e.action) =
        db0.audit_logs.map (fun e => e.action) ++ ["CREATE"] :=
  C2_put_get_single_create_entry cipher0 cipher0_roundtrip db0 "P-100"
    "name=Jane Doe" rfl

/-- C3 (counterexample): with sequence ids `[1, 2]` carrying skewed
timestamps `[5, 10]`, `get_audit_logs` returns the ids as `[2, 1]` — not in
ascending sequence order — because it orders by wall-clock timestamp
descending. -/
theorem C3_counterexample :
    (get_audit_logs db_skew 100).map (fun v => v.id) = [2, 1] ∧
    ¬ ((get_audit_logs db_skew 100).map (fun v => v.id)).Pairwise
        (fun a b => a ≤ b) :=
  ⟨rfl, by decide⟩

/-- C3 (amended): for every ledger state and limit, `get_audit_logs`
returns at most `limit` rows ordered by non-increasing wall-clock
timestamp; the timestamp — not the sequence id — is the ordering key, so
clock skew can reorder the returned log. -/
theorem C3_read_orders_by_timestamp_desc (db : DB) (limit : Nat) :
    ((get_audit_logs db limit).map (fun v => v.timestamp)).Pairwise
      (fun a b => b ≤ a) ∧
    (get_audit_logs db limit).length ≤ limit := by
  constructor
  · rw [get_audit_logs, List.map_map]
    refine List.pairwise_map.mpr ?_
    exact (pairwise_sortByTimestampDesc db.audit_logs).sublist
      (List.take_sublist _ _)
  · rw [get_audit_logs, List.length_map]
    exact List.length_take_le _ _

/-- C4: round-trip law as used by the Record Store: given the Fernet
round-trip contract, `decrypt_data` after `encrypt_data` is the identity
(for every payload string, the empty string included), and a put followed
by a get under the same key returns the stored payload unchanged. -/
theorem C4_seal_open_roundtrip (c : Cipher) (hc : c.RoundTrip) (db : DB)
    (ext_id payload : String)
    (hfresh : db.patients.any (fun r => r.patient_id == ext_id) = false) :
    decrypt_data c (encrypt_data c payload) = some payload ∧
    ∃ db2, add_patient c db ext_id payload = .ok (db.next_patient_rowid, db2) ∧
      get_patient c db2 ext_id =
        .ok (some ⟨payload, db.next_patient_rowid, db.now, db.now⟩) := by
  have h1 : db.patients.find? (fun r => r.patient_id == ext_id) = none :=
    find?_eq_none_of_any_eq_false hfresh
  refine ⟨hc payload, _, add_patient_eq c db ext_id payload hfresh, ?_⟩
  simp [get_patient, find?_append_of_none h1, decrypt_data, encrypt_data,
    hc payload]

/-- C4 (witness): the round trip at the empty payload on the empty
database. -/
theorem C4_seal_open_roundtrip_witness :
    decrypt_data cipher0 (encrypt_data cipher0 "") = some "" ∧
    ∃ db2, add_patient cipher0 db0 "P-100" "" =
        .ok (db0.next_patient_rowid, db2) ∧
      get_patient cipher0 db2 "P-100" =
        .ok (some ⟨"", db0.next_patient_rowid, db0.now, db0.now⟩) :=
  C4_seal_open_roundtrip cipher0 cipher0_roundtrip db0 "P-100" "" rfl

/-- C5 (counterexample): with a one-byte (wrong-length, corrupt) key file,
`load_or_create_key` neither fails nor falls back to a fresh key: it
returns the corrupt content as the key — no length validation is performed
on load. -/
theorem C5_counterexample :
    (load_or_create_key (some [0]) (List.replicate 44 65)).fst = [0] ∧
    ([0] : List Nat).length ≠ 44 :=
  ⟨rfl, by decide⟩

/-- C5 (amended): on first call (no key file) `load_or_create_key`
persists and returns the freshly generated key; on every later call it
returns the persisted content unchanged — but with no validation: corrupt
or wrong-length content is returned as-is instead of failing (the only
length check happens later, inside the external Fernet constructor). -/
theorem C5_key_lifecycle_no_validation (fresh content : List Nat) :
    load_or_create_key none fresh = (fresh, fresh) ∧
    load_or_create_key (some content) fresh = (content, content) :=
  ⟨rfl, rfl⟩


/-- C6 (counterexample): authenticating the active user `alice` with her
correct password succeeds and returns the session data, yet the audit
ledger stays empty — no `LOGIN_SUCCESS` audit entry is written (the source
only calls the application logger). -/
theorem C6_counterexample :
    (authenticate_user bcrypt0 db_alice "alice" "pw").fst =
      some ⟨1, "alice", "technician", "Alice", none, 0⟩ ∧
    (authenticate_user bcrypt0 db_alice "alice" "pw").snd.audit_logs = [] :=
  ⟨rfl, rfl⟩

/-- C6 (amended): on success `authenticate_user` returns the session dict
carrying the identity id, role and issue time and sets the stored
`last_login` to the current time, but appends no audit entry; each of the
three failure causes — unknown username, inactive identity, wrong
password — returns the same generic `none` with the database unchanged. -/
theorem C6_authenticate_behavior (bc : Bcrypt) (db : DB)
    (username password : String) :
    (db.users.find? (fun r => r.username == username) = none →
      authenticate_user bc db username password = (none, db)) ∧
    (∀ row, db.users.find? (fun r => r.username == username) = some row →
      row.is_active = false →
      authenticate_user bc db username password = (none, db)) ∧
    (∀ row, db.users.find? (fun r => r.username == username) = some row →
      row.is_active = true → bc.checkpw password row.password_hash = false →
      authenticate_user bc db username password = (none, db)) ∧
    (∀ row, db.users.find? (fun r => r.username == username) = some row →
      row.is_active = true → bc.checkpw password row.password_hash = true →
      (authenticate_user bc db username password).fst =
        some ⟨row.id, row.username, row.role, row.full_name, row.email,
          db.now⟩ ∧
      (authenticate_user bc db username password).snd.users =
        db.users.map (fun r =>
          if r.id == row.id then { r with last_login := some db.now }
          else r) ∧
      (authenticate_user bc db username password).snd.audit_logs =
        db.audit_logs) := by
  refine ⟨?_, ?_, ?_, ?_⟩
  · intro h
    simp [authenticate_user, h]
  · intro row h hact
    simp [authenticate_user, h, hact]
  · intro row h hact hpw
    simp [authenticate_user, h, hact, hpw]
  · intro row h hact hpw
    simp [authenticate_user, h, hact, hpw]

/-- C6 (witness): the success branch of the amended behaviour evaluated on
the database holding the single active user `alice`. -/
theorem C6_authenticate_behavior_witness :
    (authenticate_user bcrypt0 db_alice "alice" "pw").fst =
      some ⟨alice_row.id, alice_row.username, alice_row.role,
        alice_row.full_name, alice_row.email, db_alice.now⟩ ∧
    (authenticate_user bcrypt0 db_alice "alice" "pw").snd.users =
      db_alice.users.map (fun r =>
        if r.id == alice_row.id then { r with last_login := some db_alice.now }
        else r) ∧
    (authenticate_user bcrypt0 db_alice "alice" "pw").snd.audit_logs =
      db_alice.audit_logs :=
  (C6_authenticate_behavior bcrypt0 db_alice "alice" "pw").2.2.2 alice_row
    (by decide) (by decide) (by decide)

/-- C7: the permission check is fail-closed and a pure lookup: for every
role and permission the check succeeds exactly when the permission belongs
to the role's statically mapped list; any role outside the three mapped
ones has the empty permission list (so every check on it is denial), and
each mapped role's list is non-empty. -/
theorem C7_check_fail_closed (r p : String) :
    (has_permission (some ⟨0, "u", r, "", none, 0⟩) p = true ↔
      p ∈ role_permissions r) ∧
    (r ≠ "admin" → r ≠ "radiologist" → r ≠ "technician" →
      role_permissions r = []) ∧
    ((r = "admin" ∨ r = "radiologist" ∨ r = "technician") →
      role_permissions r ≠ []) := by
  refine ⟨?_, ?_, ?_⟩
  · simp [has_permission]
  · intro h1 h2 h3
    simp [role_permissions, h1, h2, h3]
  · rintro (rfl | rfl | rfl) <;> simp [role_permissions]

/-- C7 (witness): the check evaluated at a mapped role holding the
permission, at an unmapped role, and at the non-empty `admin` list. -/
theorem C7_check_fail_closed_witness :
    has_permission (some ⟨0, "u", "technician", "", none, 0⟩)
      "add_patients" = true ∧
    role_permissions "guest" = [] ∧
    role_permissions "admin" ≠ [] :=
  ⟨(C7_check_fail_closed "technician" "add_patients").1.mpr (by decide),
   (C7_check_fail_closed "guest" "x").2.1 (by decide) (by decide) (by decide),
   (C7_check_fail_closed "admin" "x").2.2 (Or.inl rfl)⟩

/-- C8 (counterexample): a technician caller (lacking `add_users`) gets the
same failure from `create_user` for a username that does not exist, so the
call does not fail exactly when the username is a duplicate. -/
theorem C8_counterexample :
    db0.users.any (fun r => r.username == "bob") = false ∧
    create_user bcrypt0 db0 (some tech_session) "bob" "pw" "technician"
      "Bob" none 0 = (false, db0) :=
  ⟨rfl, rfl⟩

/-- C8 (amended): for a caller whose role holds `add_users`, `create_user`
fails exactly when the supplied username already exists under case-exact
string match; on that failure nothing is persisted and the whole state —
including the existing identity's verifier and role — is unchanged; on
success the single new row is appended.  A caller without `add_users`
receives the same failure value even for a fresh username. -/
theorem C8_create_user_duplicate (bc : Bcrypt) (db : DB)
    (cu : Option UserData) (username password role full_name : String)
    (email : Option String) (salt : Nat)
    (hperm : has_permission cu "add_users" = true) :
    ((create_user bc db cu username password role full_name email salt).fst
        = false ↔ username ∈ db.users.map (fun r => r.username)) ∧
    (username ∈ db.users.map (fun r => r.username) →
      (create_user bc db cu username password role full_name email salt).snd
        = db) ∧
    (username ∉ db.users.map (fun r => r.username) →
      (create_user bc db cu username password role full_name email salt).snd.users
        = db.users ++
          [{ id := db.next_user_id, username := username,
             password_hash := bc.hashpw password salt, role := role,
             full_name := full_name, email := email, created_at := db.now,
             last_login := none, is_active := true }]) := by
  have hmem : db.users.any (fun r => r.username == username) = true ↔
      username ∈ db.users.map (fun r => r.username) := by
    simp [List.any_eq_true]
  by_cases hdup : username ∈ db.users.map (fun r => r.username)
  · have h : db.users.any (fun r => r.username == username) = true :=
      hmem.mpr hdup
    refine ⟨?_, ?_, ?_⟩
    · simp [create_user, hperm, h, hdup]
    · intro _
      simp [create_user, hperm, h]
    · intro hn
      exact absurd hdup hn
  · have h : db.users.any (fun r => r.username == username) = false := by
      cases hval : db.users.any (fun r => r.username == username) with
      | true => exact absurd (hmem.mp hval) hdup
      | false => rfl
    refine ⟨?_, ?_, ?_⟩
    · simp [create_user, hperm, h, hdup]
    · intro hd
      exact absurd hd hdup
    · intro _
      simp [create_user, hperm, h]

/-- C8 (witness): an admin caller retrying the existing username `alice`
fails and leaves the database — including the stored verifier — unchanged. -/
theorem C8_create_user_duplicate_witness :
    (create_user bcrypt0 db_alice (some admin_session) "alice" "pw2"
      "technician" "A2" none 3).fst = false ∧
    (create_user bcrypt0 db_alice (some admin_session) "alice" "pw2"
      "technician" "A2" none 3).snd = db_alice := by
  have h := C8_create_user_duplicate bcrypt0 db_alice (some admin_session)
    "alice" "pw2" "technician" "A2" none 3 (by decide)
  exact ⟨h.1.mpr (by decide), h.2.1 (by decide)⟩

/-- C9 (counterexample): with the correct old password and the empty string
as the new password, `change_password` succeeds and replaces the stored
verifier — no minimum-length policy is applied to the new password. -/
theorem C9_counterexample :
    (change_password bcrypt0 db_alice 1 "pw" "" 5).fst = true ∧
    (change_password bcrypt0 db_alice 1 "pw" "" 5).snd.users.map
      (fun r => r.password_hash) = [""] ∧
    ("" : String).length = 0 :=
  ⟨rfl, rfl, rfl⟩

/-- C9 (amended): `change_password` replaces the stored verifier exactly
when the user row exists and the old password verifies against the stored
hash; a missing user or a failed verification leaves the state unchanged
and reports failure; no check whatsoever is applied to the new password. -/
theorem C9_change_password_verify_then_replace (bc : Bcrypt) (db : DB)
    (user_id : Nat) (old_password new_password : String) (salt : Nat) :
    (db.users.find? (fun r => r.id == user_id) = none →
      change_password bc db user_id old_password new_password salt
        = (false, db)) ∧
    (∀ row, db.users.find? (fun r => r.id == user_id) = some row →
      bc.checkpw old_password row.password_hash = false →
      change_password bc db user_id old_password new_password salt
        = (false, db)) ∧
    (∀ row, db.users.find? (fun r => r.id == user_id) = some row →
      bc.checkpw old_password row.password_hash = true →
      change_password bc db user_id old_password new_password salt
        = (true, { db with users := db.users.map (fun r =>
            if r.id == user_id then
              { r with password_hash := bc.hashpw new_password salt }
            else r) })) := by
  refine ⟨?_, ?_, ?_⟩
  · intro h
    simp [change_password, h]
  · intro row h hpw
    simp [change_password, h, hpw]
  · intro row h hpw
    simp [change_password, h, hpw]

/-- C9 (witness): a wrong old password leaves the verifier unchanged. -/
theorem C9_change_password_verify_then_replace_witness :
    change_password bcrypt0 db_alice 1 "bad" "x" 0 = (false, db_alice) :=
  (C9_change_password_verify_then_replace bcrypt0 db_alice 1 "bad" "x"
    0).2.1 alice_row (by decide) (by decide)

/-- C10: with no authenticated user, `has_permission` returns `false` for
every permission string; the no-session state is fail-closed and the
(total) function raises nothing. -/
theorem C10_no_session_denies (p : String) :
    has_permission none p = false :=
  rfl

end Xray
